import Mathlib

/-!
Verification of the patient-vitals monitoring dashboard (src/app.py)
against its natural-language specification.

The Python program is shallowly embedded: pandas values become rationals
(`ℚ`), nullable numeric cells become `Option ℚ`, the CSV cells fetched
from the Flask backend become the `Cell` inductive, and the single-file
Streamlit script's functions (`load_data`, `is_hardware_connected`,
`load_alerts`, `save_alert`) and inline Home-page threshold checks become
the executable definitions below.
-/

namespace Dashboard

/-- Seconds after which the hardware is considered disconnected
(src/app.py line 22: `CONNECTION_THRESHOLD = 20`). -/
def CONNECTION_THRESHOLD : ℚ := 20

/-- A raw CSV cell as delivered by the Flask backend.  `num q` is a cell
that pandas parses successfully to the value `q` (as a number for
`pd.to_numeric`, as an instant for `pd.to_datetime`, instants being
modelled as rational epoch seconds); `text s` is a cell that fails both
parses (including the empty/NaN cell). -/
inductive Cell where
  | num (q : ℚ)
  | text (s : String)
deriving DecidableEq, Repr

/-- Models `pd.to_numeric(cell, errors='coerce')` on one cell
(src/app.py lines 35-38): an unparsable cell coerces to NaN, which the
embedding represents as `none` (absent), never as an error and never as
zero. -/
def toNumericCoerce : Cell → Option ℚ
  | Cell.num q => some q
  | Cell.text _ => none

/-- Models `pd.to_datetime(cell)` on one cell (src/app.py line 34):
default `errors='raise'` means an unparsable timestamp raises an
exception. -/
def toDatetime : Cell → Except String ℚ
  | Cell.num q => Except.ok q
  | Cell.text s => Except.error s

/-- One raw row of the fetched CSV.  The Blood Pressure column is left
untouched by `load_data` and no claim concerns it, so it is not
modelled. -/
structure RawRow where
  timestamp : Cell
  temperature : Cell
  blood_oxygen : Cell
  heart_rate : Cell
  respiration_rate : Cell
deriving DecidableEq, Repr

/-- A fetched CSV batch: which of the columns that `load_data` touches
are present in the header, plus the data rows.  When a column is absent
from the CSV, `df[col]` in the source raises a `KeyError`. -/
structure RawBatch where
  hasTimestamp : Bool
  hasTemperature : Bool
  hasBloodOxygen : Bool
  hasHeartRate : Bool
  hasRespirationRate : Bool
  rows : List RawRow
deriving DecidableEq, Repr

/-- A normalized reading: the typed row of the dataframe `load_data`
returns.  Numeric vitals are nullable (`none` = NaN = absent). -/
structure Reading where
  timestamp : ℚ
  temperature : Option ℚ
  blood_oxygen : Option ℚ
  heart_rate : Option ℚ
  respiration_rate : Option ℚ
deriving DecidableEq, Repr

/-- Models `pd.to_datetime(df["Timestamp"])` over the whole column in
row order (src/app.py line 34): the first unparsable cell raises,
failing the whole batch. -/
def parseTimestamps : List RawRow → Except String (List ℚ)
  | [] => Except.ok []
  | r :: rest =>
    match toDatetime r.timestamp with
    | Except.error e => Except.error e
    | Except.ok t =>
      match parseTimestamps rest with
      | Except.error e => Except.error e
      | Except.ok ts => Except.ok (t :: ts)

/-- The parsing body of `load_data`'s `try` block (src/app.py lines
33-39), in source order: access the Timestamp column (KeyError if the
column is missing), datetime-parse it (raise on an unparsable cell),
then access and numerically coerce each vital column (KeyError if that
column is missing, NaN for an unparsable cell).  Any raised exception is
the `Except.error` case. -/
def parseBatch (b : RawBatch) : Except String (List Reading) :=
  if b.hasTimestamp = false then Except.error "KeyError: Timestamp" else
  match parseTimestamps b.rows with
  | Except.error e => Except.error e
  | Except.ok ts =>
    if b.hasTemperature = false then Except.error "KeyError: Temperature" else
    if b.hasBloodOxygen = false then Except.error "KeyError: Blood Oxygen" else
    if b.hasHeartRate = false then Except.error "KeyError: Heart Rate" else
    if b.hasRespirationRate = false then Except.error "KeyError: Respiration Rate" else
    Except.ok (List.zipWith (fun r t =>
      { timestamp := t
        temperature := toNumericCoerce r.temperature
        blood_oxygen := toNumericCoerce r.blood_oxygen
        heart_rate := toNumericCoerce r.heart_rate
        respiration_rate := toNumericCoerce r.respiration_rate }) b.rows ts)

/-- Outcome of `requests.get(f"{FLASK_API_URL}/vitals")` (src/app.py
line 31): a 200 response carrying a CSV batch, a non-200 response, or a
raised exception (network failure). -/
inductive FetchResult where
  | ok (b : RawBatch)
  | httpNotOk
  | exn
deriving DecidableEq, Repr

/-- A user-visible notice emitted by `load_data`: `st.warning` or
`st.error`. -/
inductive Notice where
  | warning (msg : String)
  | error (msg : String)
deriving DecidableEq, Repr

/-- Models `load_data` (src/app.py lines 29-45): on a 200 response the
batch is parsed (a raised `KeyError` or datetime parse error is caught
by the `except` clause, which shows `st.error` and returns an empty
frame); a non-200 response shows `st.warning` and returns an empty
frame; a raised network exception shows `st.error` and returns an empty
frame.  Returns the readings together with the notice shown, if any. -/
def load_data (f : FetchResult) : List Reading × Option Notice :=
  match f with
  | FetchResult.ok b =>
    match parseBatch b with
    | Except.ok rs => (rs, none)
    | Except.error e => ([], some (Notice.error e))
  | FetchResult.httpNotOk => ([], some (Notice.warning "No data available from Flask."))
  | FetchResult.exn => ([], some (Notice.error "Error fetching data from Flask"))

/-- Models `is_hardware_connected` (src/app.py lines 48-54): an empty
frame is disconnected; otherwise the device is connected iff the last
row's timestamp is at most `CONNECTION_THRESHOLD` seconds old. -/
def is_hardware_connected (readings : List Reading) (now : ℚ) : Bool :=
  match readings.getLast? with
  | none => false
  | some r => decide (now - r.timestamp ≤ CONNECTION_THRESHOLD)

/-- The derived connectivity value of the spec: the online flag computed
by `is_hardware_connected` together with the latest reading's timestamp
(the `last_seen` of the spec), `none` when no reading exists. -/
structure ConnectivityStatus where
  online : Bool
  last_seen : Option ℚ
deriving DecidableEq, Repr

/-- Connectivity status as derived on the Home page: `online` from
`is_hardware_connected`, `last_seen` from `df["Timestamp"].iloc[-1]`
when the frame is non-empty. -/
def connectivity_status (readings : List Reading) (now : ℚ) : ConnectivityStatus :=
  { online := is_hardware_connected readings now
    last_seen := readings.getLast?.map Reading.timestamp }

/-- The four alert kinds checked on the Home page (src/app.py lines
94-137). -/
inductive AlertKind where
  | temperature
  | bloodOxygen
  | heartRate
  | respirationRate
deriving DecidableEq, Repr

/-- Temperature check (src/app.py line 96):
`pd.notna(temp) and (temp < 36 or temp > 38)`. -/
def tempFires (r : Reading) : Bool :=
  match r.temperature with
  | none => false
  | some t => decide (t < 36) || decide (t > 38)

/-- Blood-oxygen check (src/app.py line 109):
`pd.notna(spo2) and spo2 < 90`. -/
def spo2Fires (r : Reading) : Bool :=
  match r.blood_oxygen with
  | none => false
  | some v => decide (v < 90)

/-- Heart-rate check (src/app.py line 122):
`pd.notna(hr) and (hr < 60 or hr > 100)`. -/
def hrFires (r : Reading) : Bool :=
  match r.heart_rate with
  | none => false
  | some v => decide (v < 60) || decide (v > 100)

/-- Respiration-rate check (src/app.py line 135):
`pd.notna(resp_rate) and (resp_rate < 12 or resp_rate > 20)`. -/
def rrFires (r : Reading) : Bool :=
  match r.respiration_rate with
  | none => false
  | some v => decide (v < 12) || decide (v > 20)

/-- The Threshold Evaluator: which alert kinds the Home page fires on
the latest reading, in source order (src/app.py lines 94-137). -/
def evaluate (r : Reading) : List AlertKind :=
  (if tempFires r then [AlertKind.temperature] else []) ++
  (if spo2Fires r then [AlertKind.bloodOxygen] else []) ++
  (if hrFires r then [AlertKind.heartRate] else []) ++
  (if rrFires r then [AlertKind.respirationRate] else [])

/-- One persisted alert-log row (alerts.csv columns Timestamp, Alert):
the detection instant (`datetime.now().isoformat()`) and the fixed
human-readable message. -/
structure AlertEvent where
  timestamp : String
  alert : String
deriving DecidableEq, Repr

/-- The persisted alert log: `none` when `alerts.csv` does not exist
yet, otherwise its rows in file order. -/
def AlertStore : Type := Option (List AlertEvent)

/-- Models `load_alerts` (src/app.py lines 57-60): read the file if it
exists, otherwise an empty frame. -/
def load_alerts (store : AlertStore) : List AlertEvent :=
  match store with
  | none => []
  | some l => l

/-- Models `save_alert` (src/app.py lines 62-66): load the current log,
append one row timestamped `datetime.now().isoformat()` (passed here as
`now`, the call time) and write the file back. -/
def save_alert (store : AlertStore) (now : String) (message : String) : AlertStore :=
  some (load_alerts store ++ [{ timestamp := now, alert := message }])

/-- The fixed human-readable message per alert kind (src/app.py lines
98, 111, 124, 137). -/
def message_for : AlertKind → String
  | AlertKind.temperature => "Temperature Alert"
  | AlertKind.bloodOxygen => "Oxygen Level Alert"
  | AlertKind.heartRate => "Heart Rate Alert"
  | AlertKind.respirationRate => "Respiration Rate Alert"

/-- `record(kind, at)` of the spec: `save_alert` called with the fixed
message for the kind, timestamped at call time. -/
def record (store : AlertStore) (kind : AlertKind) (at_ : String) : AlertStore :=
  save_alert store at_ (message_for kind)

/-- Per-session presentation state (src/app.py lines 25-26): the
`alerts_viewed` flag, initialized to `False` for a fresh session. -/
structure SessionState where
  alerts_viewed : Bool
deriving DecidableEq, Repr

/-- The session state paired with the persisted log, as mutated by the
Alerts page. -/
structure AppState where
  store : AlertStore
  session : SessionState

/-- Models visiting the Alerts page (src/app.py line 151):
`st.session_state.alerts_viewed = True`; the log is not touched. -/
def mark_viewed (s : AppState) : AppState :=
  { s with session := { alerts_viewed := true } }

/-- The sidebar alert indicator condition (src/app.py line 73):
`not alerts_df.empty and not st.session_state.alerts_viewed`. -/
def has_unviewed (store : AlertStore) (alerts_viewed : Bool) : Bool :=
  !(load_alerts store).isEmpty && !alerts_viewed

/-- One Home-page tick (src/app.py lines 77-85): fetch and normalize
via `load_data`, then derive the connection banner from
`is_hardware_connected` applied to the resulting frame alone. -/
structure TickResult where
  readings : List Reading
  notice : Option Notice
  connected : Bool
deriving DecidableEq, Repr

/-- The fetch-and-banner part of a Home-page tick. -/
def homeTick (f : FetchResult) (now : ℚ) : TickResult :=
  let p := load_data f
  { readings := p.1
    notice := p.2
    connected := is_hardware_connected p.1 now }

end Dashboard

namespace Dashboard

/-! ### Concrete example inputs used by witnesses and counterexamples -/

/-- A fully-parseable raw row. -/
def rowGood : RawRow :=
  { timestamp := Cell.num 0, temperature := Cell.num 37, blood_oxygen := Cell.num 95
    heart_rate := Cell.num 70, respiration_rate := Cell.num 15 }

/-- A raw row with an unparsable temperature cell. -/
def rowBadTemp : RawRow :=
  { timestamp := Cell.num 0, temperature := Cell.text "abc", blood_oxygen := Cell.num 95
    heart_rate := Cell.num 70, respiration_rate := Cell.num 15 }

/-- A batch delivered in descending timestamp order (all columns present). -/
def batchDesc : RawBatch :=
  { hasTimestamp := true, hasTemperature := true, hasBloodOxygen := true
    hasHeartRate := true, hasRespirationRate := true
    rows := [{ rowGood with timestamp := Cell.num 1 }, rowGood] }

/-- A batch whose Temperature column is missing entirely, other data fine. -/
def batchNoTempCol : RawBatch :=
  { hasTimestamp := true, hasTemperature := false, hasBloodOxygen := true
    hasHeartRate := true, hasRespirationRate := true
    rows := [rowGood] }

/-- A batch (all columns present) mixing an unparsable temperature cell
with a parseable one. -/
def batchMixed : RawBatch :=
  { hasTimestamp := true, hasTemperature := true, hasBloodOxygen := true
    hasHeartRate := true, hasRespirationRate := true
    rows := [rowBadTemp, { rowGood with timestamp := Cell.num 1 }] }

end Dashboard

namespace Dashboard

/-! ### Helper lemmas -/

theorem mem_evaluate_temperature (r : Reading) :
    AlertKind.temperature ∈ evaluate r ↔ tempFires r = true := by
  unfold evaluate
  cases h1 : tempFires r <;> cases h2 : spo2Fires r <;> cases h3 : hrFires r <;>
    cases h4 : rrFires r <;> simp

theorem mem_evaluate_bloodOxygen (r : Reading) :
    AlertKind.bloodOxygen ∈ evaluate r ↔ spo2Fires r = true := by
  unfold evaluate
  cases h1 : tempFires r <;> cases h2 : spo2Fires r <;> cases h3 : hrFires r <;>
    cases h4 : rrFires r <;> simp

theorem mem_evaluate_heartRate (r : Reading) :
    AlertKind.heartRate ∈ evaluate r ↔ hrFires r = true := by
  unfold evaluate
  cases h1 : tempFires r <;> cases h2 : spo2Fires r <;> cases h3 : hrFires r <;>
    cases h4 : rrFires r <;> simp

theorem mem_evaluate_respirationRate (r : Reading) :
    AlertKind.respirationRate ∈ evaluate r ↔ rrFires r = true := by
  unfold evaluate
  cases h1 : tempFires r <;> cases h2 : spo2Fires r <;> cases h3 : hrFires r <;>
    cases h4 : rrFires r <;> simp

theorem parseTimestamps_ok_length :
    ∀ {rows : List RawRow} {ts : List ℚ},
      parseTimestamps rows = Except.ok ts → ts.length = rows.length := by
  intro rows
  induction rows with
  | nil => intro ts h; simp [parseTimestamps] at h; simp [h]
  | cons r rest ih =>
    intro ts h
    unfold parseTimestamps at h
    cases hd : toDatetime r.timestamp with
    | error e => rw [hd] at h; simp at h
    | ok t =>
      rw [hd] at h
      cases hrest : parseTimestamps rest with
      | error e => rw [hrest] at h; simp at h
      | ok ts2 =>
        rw [hrest] at h
        simp at h
        subst h
        simp [ih hrest]

theorem zipWith_right_proj {α β : Type} :
    ∀ (l1 : List α) (l2 : List β), l1.length = l2.length →
      List.zipWith (fun _ b => b) l1 l2 = l2
  | [], [], _ => rfl
  | [], _ :: _, h => by simp at h
  | _ :: _, [], h => by simp at h
  | _ :: l1, b :: l2, h => by
    simp only [List.zipWith]
    rw [zipWith_right_proj l1 l2 (by simpa using h)]

theorem zipWith_left_map {α β γ : Type} (f : α → γ) :
    ∀ (l1 : List α) (l2 : List β), l1.length = l2.length →
      List.zipWith (fun a _ => f a) l1 l2 = l1.map f
  | [], [], _ => rfl
  | [], _ :: _, h => by simp at h
  | _ :: _, [], h => by simp at h
  | a :: l1, b :: l2, h => by
    simp only [List.zipWith, List.map]
    rw [zipWith_left_map f l1 l2 (by simpa using h)]

theorem parseTimestamps_error_iff :
    ∀ (rows : List RawRow),
      (∃ e, parseTimestamps rows = Except.error e) ↔
        ∃ r ∈ rows, ∃ s, r.timestamp = Cell.text s := by
  intro rows
  induction rows with
  | nil => simp [parseTimestamps]
  | cons r rest ih =>
    unfold parseTimestamps
    cases hd : toDatetime r.timestamp with
    | error e =>
      simp only [hd]
      constructor
      · intro _
        refine ⟨r, by simp, ?_⟩
        cases hc : r.timestamp with
        | num q => rw [hc] at hd; simp [toDatetime] at hd
        | text s => exact ⟨s, rfl⟩
      · intro _; exact ⟨e, rfl⟩
    | ok t =>
      simp only [hd]
      cases hrest : parseTimestamps rest with
      | error e =>
        simp only [hrest]
        constructor
        · intro _
          obtain ⟨r2, hr2, hs⟩ := ih.mp ⟨e, hrest⟩
          exact ⟨r2, by simp [hr2], hs⟩
        · intro _; exact ⟨e, rfl⟩
      | ok ts =>
        simp only [hrest]
        constructor
        · intro ⟨e, he⟩; simp at he
        · intro ⟨r2, hr2, s, hs⟩
          rcases List.mem_cons.mp hr2 with h | h
          · subst h; rw [hs] at hd; simp [toDatetime] at hd
          · obtain ⟨e, he⟩ := ih.mpr ⟨r2, h, s, hs⟩
            rw [he] at hrest; simp at hrest

end Dashboard

namespace Dashboard

/-! ### Claim theorems -/

/-- Claim C1: for every Reading whose vital field is present, the
Threshold Evaluator fires the corresponding AlertKind if and only if the
value is outside the safe range, with inclusive-safe / exclusive-alert
boundaries: Temperature fires iff < 36 or > 38, BloodOxygen iff < 90,
HeartRate iff < 60 or > 100, RespirationRate iff < 12 or > 20. -/
theorem threshold_evaluator_fires_iff (r : Reading) :
    (∀ v, r.temperature = some v →
      (AlertKind.temperature ∈ evaluate r ↔ (v < 36 ∨ v > 38))) ∧
    (∀ v, r.blood_oxygen = some v →
      (AlertKind.bloodOxygen ∈ evaluate r ↔ v < 90)) ∧
    (∀ v, r.heart_rate = some v →
      (AlertKind.heartRate ∈ evaluate r ↔ (v < 60 ∨ v > 100))) ∧
    (∀ v, r.respiration_rate = some v →
      (AlertKind.respirationRate ∈ evaluate r ↔ (v < 12 ∨ v > 20))) := by
  refine ⟨?_, ?_, ?_, ?_⟩ <;> intro v hv
  · rw [mem_evaluate_temperature]; simp [tempFires, hv]
  · rw [mem_evaluate_bloodOxygen]; simp [spo2Fires, hv]
  · rw [mem_evaluate_heartRate]; simp [hrFires, hv]
  · rw [mem_evaluate_respirationRate]; simp [rrFires, hv]

/-- Witness for C1 at a concrete reading: temperature 35 (below range)
fires, heart rate 70 (in range) does not. -/
theorem threshold_evaluator_fires_iff_witness :
    (AlertKind.temperature ∈
        evaluate ⟨0, some 35, some 95, some 70, some 15⟩ ↔
      ((35 : ℚ) < 36 ∨ (35 : ℚ) > 38)) ∧
    (AlertKind.heartRate ∈
        evaluate ⟨0, some 35, some 95, some 70, some 15⟩ ↔
      ((70 : ℚ) < 60 ∨ (70 : ℚ) > 100)) :=
  ⟨(threshold_evaluator_fires_iff ⟨0, some 35, some 95, some 70, some 15⟩).1 35 rfl,
   (threshold_evaluator_fires_iff ⟨0, some 35, some 95, some 70, some 15⟩).2.2.1 70 rfl⟩

/-- Claim C5: for every Reading in which a given vital field is absent,
the Threshold Evaluator fires no alert of that kind (and, being a total
function, raises no error), regardless of the other fields. -/
theorem absent_field_no_alert (r : Reading) :
    (r.temperature = none → AlertKind.temperature ∉ evaluate r) ∧
    (r.blood_oxygen = none → AlertKind.bloodOxygen ∉ evaluate r) ∧
    (r.heart_rate = none → AlertKind.heartRate ∉ evaluate r) ∧
    (r.respiration_rate = none → AlertKind.respirationRate ∉ evaluate r) := by
  refine ⟨?_, ?_, ?_, ?_⟩ <;> intro hv
  · rw [mem_evaluate_temperature]; simp [tempFires, hv]
  · rw [mem_evaluate_bloodOxygen]; simp [spo2Fires, hv]
  · rw [mem_evaluate_heartRate]; simp [hrFires, hv]
  · rw [mem_evaluate_respirationRate]; simp [rrFires, hv]

/-- Witness for C5: a reading with blood oxygen absent but every other
vital wildly abnormal fires no BloodOxygen alert. -/
theorem absent_field_no_alert_witness :
    AlertKind.bloodOxygen ∉ evaluate ⟨0, some 45, none, some 300, some 0⟩ :=
  (absent_field_no_alert ⟨0, some 45, none, some 300, some 0⟩).2.1 rfl

/-- Claim C3: with no reading the Connectivity Monitor reports offline
with `last_seen = none`; otherwise it reports online iff
`now - last_seen ≤ CONNECTION_THRESHOLD` (the boundary itself counts as
online, since the comparison is `≤`). -/
theorem connectivity_status_spec (rs : List Reading) (now t : ℚ) :
    (rs = [] → connectivity_status rs now = { online := false, last_seen := none }) ∧
    ((connectivity_status rs now).last_seen = some t →
      ((connectivity_status rs now).online = true ↔
        now - t ≤ CONNECTION_THRESHOLD)) := by
  constructor
  · intro h; subst h; rfl
  · intro h
    unfold connectivity_status at h ⊢
    cases hL : rs.getLast? with
    | none => rw [hL] at h; simp at h
    | some r =>
      rw [hL] at h
      simp only [Option.map_some', Option.some.injEq] at h
      unfold is_hardware_connected
      rw [hL]
      simp [h]

/-- Witness for C3: no reading is offline with no `last_seen`; a reading
exactly `CONNECTION_THRESHOLD` seconds old counts as online. -/
theorem connectivity_status_spec_witness :
    connectivity_status [] 5 = { online := false, last_seen := none } ∧
    ((connectivity_status [⟨0, none, none, none, none⟩] 20).online = true ↔
      (20 : ℚ) - 0 ≤ CONNECTION_THRESHOLD) :=
  ⟨(connectivity_status_spec [] 5 0).1 rfl,
   (connectivity_status_spec [⟨0, none, none, none, none⟩] 20 0).2 rfl⟩

/-- Claim C7: the alert log is append-only: `record(kind, at)` yields the
previous log with exactly one new AlertEvent appended at the end, and
`mark_viewed` changes only the session's viewed flag, leaving the log
identical. -/
theorem alert_log_append_only (s : AppState) (k : AlertKind) (at_ : String) :
    load_alerts (record s.store k at_) =
      load_alerts s.store ++ [{ timestamp := at_, alert := message_for k }] ∧
    (mark_viewed s).store = s.store ∧
    (mark_viewed s).session.alerts_viewed = true :=
  ⟨rfl, rfl, rfl⟩

/-- Claim C8: the Alert Store performs no deduplication: three
consecutive `record` calls of the same kind produce three distinct
entries, each timestamped at its own call time. -/
theorem alert_store_no_dedup (store : AlertStore) (k : AlertKind)
    (t1 t2 t3 : String) :
    load_alerts (record (record (record store k t1) k t2) k t3) =
      load_alerts store ++
        [{ timestamp := t1, alert := message_for k },
         { timestamp := t2, alert := message_for k },
         { timestamp := t3, alert := message_for k }] ∧
    (load_alerts (record (record (record store k t1) k t2) k t3)).length =
      (load_alerts store).length + 3 := by
  constructor
  · simp [record, save_alert, load_alerts]
  · simp [record, save_alert, load_alerts]

/-- Claim C9: a failed fetch is surfaced as a notice and treated as "no
new data" (an empty working set); the Connectivity Monitor's output is a
function of the readings alone (its offline signal derives only from
reading absence/staleness, not from the fetch error itself). -/
theorem fetch_failure_no_new_data (f : FetchResult) (now : ℚ)
    (h : f = FetchResult.exn) :
    (homeTick f now).readings = [] ∧
    (homeTick f now).notice.isSome = true ∧
    ∀ g : FetchResult,
      (homeTick g now).connected =
        is_hardware_connected (homeTick g now).readings now := by
  subst h
  exact ⟨rfl, rfl, fun g => rfl⟩

/-- Witness for C9 at a concrete failed tick. -/
theorem fetch_failure_no_new_data_witness :
    (homeTick FetchResult.exn 0).readings = [] ∧
    (homeTick FetchResult.exn 0).notice.isSome = true ∧
    ∀ g : FetchResult,
      (homeTick g 0).connected =
        is_hardware_connected (homeTick g 0).readings 0 :=
  fetch_failure_no_new_data FetchResult.exn 0 rfl

/-- Claim C10: when the persisted alert log file does not exist, the log
loads as empty without error, and a fresh session (viewed flag false)
has no unviewed alerts. -/
theorem missing_alert_file_empty :
    load_alerts (none : AlertStore) = [] ∧
    has_unviewed (none : AlertStore) false = false :=
  ⟨rfl, rfl⟩

end Dashboard

namespace Dashboard

/-- Inversion for a successful parse: all five columns are present, the
timestamp column parses, and the readings are the rows zipped with their
parsed timestamps in row order. -/
theorem parseBatch_ok_iff (b : RawBatch) (rs : List Reading) :
    parseBatch b = Except.ok rs ↔
      b.hasTimestamp = true ∧ b.hasTemperature = true ∧ b.hasBloodOxygen = true ∧
      b.hasHeartRate = true ∧ b.hasRespirationRate = true ∧
      ∃ ts, parseTimestamps b.rows = Except.ok ts ∧
        rs = List.zipWith (fun r t =>
          { timestamp := t
            temperature := toNumericCoerce r.temperature
            blood_oxygen := toNumericCoerce r.blood_oxygen
            heart_rate := toNumericCoerce r.heart_rate
            respiration_rate := toNumericCoerce r.respiration_rate }) b.rows ts := by
  unfold parseBatch
  cases hP : parseTimestamps b.rows <;>
    cases hT : b.hasTimestamp <;> cases hTe : b.hasTemperature <;>
    cases hBO : b.hasBloodOxygen <;> cases hHR : b.hasHeartRate <;>
    cases hRR : b.hasRespirationRate <;>
    simp [hP, eq_comm]

/-- A batch with any of the five touched columns missing raises a
KeyError inside the `try` block, so `parseBatch` fails. -/
theorem parseBatch_error_of_missing_col (b : RawBatch)
    (h : b.hasTimestamp = false ∨ b.hasTemperature = false ∨
      b.hasBloodOxygen = false ∨ b.hasHeartRate = false ∨
      b.hasRespirationRate = false) :
    ∃ e, parseBatch b = Except.error e := by
  unfold parseBatch
  cases hP : parseTimestamps b.rows <;>
    cases hT : b.hasTimestamp <;> cases hTe : b.hasTemperature <;>
    cases hBO : b.hasBloodOxygen <;> cases hHR : b.hasHeartRate <;>
    cases hRR : b.hasRespirationRate <;>
    simp_all

/-- Claim C2 counterexample: the Normalizer does not sort.  A batch
delivered in descending timestamp order comes back in the same
descending order, so the output is not sorted ascending by timestamp. -/
theorem normalizer_no_sort_counterexample :
    ((load_data (FetchResult.ok batchDesc)).1.map Reading.timestamp = [(1 : ℚ), 0]) ∧
    ¬ List.Sorted (fun a b : ℚ => a ≤ b)
        ((load_data (FetchResult.ok batchDesc)).1.map Reading.timestamp) := by
  constructor
  · rfl
  · intro hs
    have he : (load_data (FetchResult.ok batchDesc)).1.map Reading.timestamp
        = [(1 : ℚ), 0] := rfl
    rw [he] at hs
    norm_num [List.sorted_cons] at hs

/-- Claim C2 amended: the Normalizer preserves the source's row order
unchanged (it performs no sort): the output readings carry the parsed
timestamp column exactly in input row order, one reading per row. -/
theorem normalizer_preserves_source_order (b : RawBatch) (rs : List Reading)
    (hok : parseBatch b = Except.ok rs) :
    parseTimestamps b.rows = Except.ok (rs.map Reading.timestamp) ∧
    rs.length = b.rows.length := by
  obtain ⟨hT, hTe, hBO, hHR, hRR, ts, hP, hrs⟩ := (parseBatch_ok_iff b rs).mp hok
  have hlen : ts.length = b.rows.length := parseTimestamps_ok_length hP
  constructor
  · rw [hP, hrs]
    congr 1
    simp only [List.map_zipWith]
    exact (zipWith_right_proj b.rows ts hlen.symm).symm
  · rw [hrs, List.length_zipWith, hlen, min_self]

/-- Witness for the amended C2 at the concrete descending batch. -/
theorem normalizer_preserves_source_order_witness :
    parseTimestamps batchDesc.rows =
      Except.ok (((load_data (FetchResult.ok batchDesc)).1).map Reading.timestamp) ∧
    (load_data (FetchResult.ok batchDesc)).1.length = batchDesc.rows.length :=
  normalizer_preserves_source_order batchDesc
    ((load_data (FetchResult.ok batchDesc)).1) rfl

/-- Claim C4 counterexample: a non-empty batch whose Temperature column
is missing is discarded whole — `load_data` returns no rows at all plus
an error notice, instead of returning the other columns' values. -/
theorem missing_column_counterexample :
    load_data (FetchResult.ok batchNoTempCol) =
      ([], some (Notice.error "KeyError: Temperature")) ∧
    batchNoTempCol.rows ≠ [] := by
  constructor
  · rfl
  · decide

/-- Claim C4 amended: when one of the touched vital columns is missing
from the fetched batch, the KeyError is caught at the pipeline boundary:
`load_data` surfaces a notice and returns an empty working set (the
batch is discarded; the app does not crash, but the other columns'
values are not preserved). -/
theorem missing_column_discards_batch (b : RawBatch)
    (h : b.hasTimestamp = false ∨ b.hasTemperature = false ∨
      b.hasBloodOxygen = false ∨ b.hasHeartRate = false ∨
      b.hasRespirationRate = false) :
    (load_data (FetchResult.ok b)).1 = [] ∧
    (load_data (FetchResult.ok b)).2.isSome = true := by
  obtain ⟨e, he⟩ := parseBatch_error_of_missing_col b h
  simp [load_data, he]

/-- Witness for the amended C4 at the concrete batch missing its
Temperature column. -/
theorem missing_column_discards_batch_witness :
    (load_data (FetchResult.ok batchNoTempCol)).1 = [] ∧
    (load_data (FetchResult.ok batchNoTempCol)).2.isSome = true :=
  missing_column_discards_batch batchNoTempCol (Or.inr (Or.inl rfl))

/-- Claim C6: with all columns present, a numeric vital cell that fails
to parse becomes an absent value (`none` — never an error, never zero)
while parseable cells in the same batch are preserved, and the whole
batch fails exactly when some timestamp cell is unparsable. -/
theorem numeric_parse_failure_becomes_absent (b : RawBatch)
    (hc : b.hasTimestamp = true ∧ b.hasTemperature = true ∧
      b.hasBloodOxygen = true ∧ b.hasHeartRate = true ∧
      b.hasRespirationRate = true) :
    (∀ rs, parseBatch b = Except.ok rs →
      rs.map Reading.temperature =
        b.rows.map (fun r => toNumericCoerce r.temperature) ∧
      rs.map Reading.blood_oxygen =
        b.rows.map (fun r => toNumericCoerce r.blood_oxygen) ∧
      rs.map Reading.heart_rate =
        b.rows.map (fun r => toNumericCoerce r.heart_rate) ∧
      rs.map Reading.respiration_rate =
        b.rows.map (fun r => toNumericCoerce r.respiration_rate)) ∧
    ((∃ e, parseBatch b = Except.error e) ↔
      ∃ r ∈ b.rows, ∃ s, r.timestamp = Cell.text s) ∧
    (∀ s, toNumericCoerce (Cell.text s) = none) ∧
    (∀ q, toNumericCoerce (Cell.num q) = some q) := by
  obtain ⟨hT, hTe, hBO, hHR, hRR⟩ := hc
  refine ⟨?_, ?_, fun s => rfl, fun q => rfl⟩
  · intro rs hok
    obtain ⟨_, _, _, _, _, ts, hP, hrs⟩ := (parseBatch_ok_iff b rs).mp hok
    have hlen : b.rows.length = ts.length := (parseTimestamps_ok_length hP).symm
    refine ⟨?_, ?_, ?_, ?_⟩ <;>
      (rw [hrs]; simp only [List.map_zipWith]; exact zipWith_left_map _ b.rows ts hlen)
  · constructor
    · intro ⟨e, he⟩
      cases hP : parseTimestamps b.rows with
      | error e2 => exact (parseTimestamps_error_iff b.rows).mp ⟨e2, hP⟩
      | ok ts => simp [parseBatch, hT, hTe, hBO, hHR, hRR, hP] at he
    · intro hbad
      obtain ⟨e, he⟩ := (parseTimestamps_error_iff b.rows).mpr hbad
      exact ⟨e, by simp [parseBatch, hT, he]⟩

/-- Witness for C6 at the concrete mixed batch: the unparsable
temperature cell of the first row becomes absent while the second row's
parseable value 37 is preserved. -/
theorem numeric_parse_failure_becomes_absent_witness :
    ([⟨0, none, some 95, some 70, some 15⟩,
      ⟨1, some 37, some 95, some 70, some 15⟩] : List Reading).map Reading.temperature =
      batchMixed.rows.map (fun r => toNumericCoerce r.temperature) :=
  ((numeric_parse_failure_becomes_absent batchMixed
      ⟨rfl, rfl, rfl, rfl, rfl⟩).1
    [⟨0, none, some 95, some 70, some 15⟩,
     ⟨1, some 37, some 95, some 70, some 15⟩] rfl).1

end Dashboard
